import Mathlib

/-!
Verification of the ducted_hvac zoned-HVAC controller.

Shallow embedding of `custom_components/ducted_hvac/climate.py` (per-zone
damper controller) and `custom_components/ducted_hvac/__init__.py`
(`MotorCoordinator`).  Temperatures and times are modelled as rationals;
optional values (missing sensor reading, absent timestamps) as `Option`;
a failing actuator service call as a boolean flag passed to the operation
(the code catches the exception and only logs).
-/

set_option autoImplicit false
set_option linter.unusedVariables false

namespace DuctedHVAC

/-- The Home Assistant HVAC mode enumeration (`HVACMode`): the five modes the
integration's `VALID_MODES` lists plus the remaining members `heat_cool` and
`auto` of the platform enum, which the restore path can also accept. -/
inductive HVACMode where
  | off
  | heat
  | cool
  | heatCool
  | auto
  | dry
  | fanOnly
  deriving DecidableEq, Repr

/-- `TEMP_CONTROLLED_MODES` from `__init__.py`: modes requiring temperature
comparison for vent control. -/
def TEMP_CONTROLLED_MODES : List HVACMode := [HVACMode.heat, HVACMode.cool]

/-- `MODE_PRIORITY` from `__init__.py`: coordinator mode priority, highest
first, excluding off. -/
def MODE_PRIORITY : List HVACMode :=
  [HVACMode.cool, HVACMode.heat, HVACMode.dry, HVACMode.fanOnly]

/-- Static per-zone configuration, from the `DuctedHVACZone` constructor
arguments. -/
structure ZoneConfig where
  hvac_modes : List HVACMode
  min_temp : ℚ
  max_temp : ℚ
  tolerance : ℚ
  min_cycle_duration : Option ℚ
  fan_modes : List String
  deriving DecidableEq, Repr

/-- Mutable state of one `DuctedHVACZone`. -/
structure ZoneState where
  hvac_mode : HVACMode
  target_temp : ℚ
  current_temp : Option ℚ
  fan_mode : Option String
  vent_open : Bool
  last_vent_toggle : Option ℚ
  deriving DecidableEq, Repr

/-- Initial in-memory state set in `DuctedHVACZone.__init__`: off, midpoint
setpoint, no reading, vent closed, no toggle timestamp, first configured fan
mode (or none when fan control is disabled). -/
def initial_zone_state (cfg : ZoneConfig) : ZoneState :=
  { hvac_mode := HVACMode.off
    target_temp := (cfg.min_temp + cfg.max_temp) / 2
    current_temp := none
    fan_mode := cfg.fan_modes.head?
    vent_open := false
    last_vent_toggle := none }

/-- `DuctedHVACZone._should_vent_be_open`, translated clause by clause from
`climate.py`. -/
def should_vent_be_open (mode : HVACMode) (current_temp : Option ℚ)
    (target_temp tolerance : ℚ) (vent_open : Bool) : Bool :=
  if mode = HVACMode.off then
    false
  else if mode = HVACMode.fanOnly ∨ mode = HVACMode.dry then
    true
  else
    match current_temp with
    | none => false
    | some temp =>
      if mode = HVACMode.heat then
        if temp < target_temp - tolerance then true
        else if temp ≥ target_temp + tolerance then false
        else vent_open
      else if mode = HVACMode.cool then
        if temp > target_temp + tolerance then true
        else if temp ≤ target_temp - tolerance then false
        else vent_open
      else false

/-- Reference damper decision written from the specification's wording, to be
compared with the implementation: Off is false; FanOnly and Dry are true
unconditionally; Heat and Cool apply hysteresis when a reading is live and
are false when the reading is absent; any other mode is false. -/
def should_vent_be_open_ref (mode : HVACMode) (current_temp : Option ℚ)
    (target_temp tolerance : ℚ) (vent_open : Bool) : Bool :=
  match mode, current_temp with
  | HVACMode.off, _ => false
  | HVACMode.fanOnly, _ => true
  | HVACMode.dry, _ => true
  | HVACMode.heat, none => false
  | HVACMode.cool, none => false
  | HVACMode.heat, some c =>
      if c < target_temp - tolerance then true
      else if c ≥ target_temp + tolerance then false
      else vent_open
  | HVACMode.cool, some c =>
      if c > target_temp + tolerance then true
      else if c ≤ target_temp - tolerance then false
      else vent_open
  | _, _ => false

/-- `DuctedHVACZone._is_min_cycle_respected`: true when no minimum cycle
duration is configured, when the vent has never been toggled, or when the
elapsed time since the last toggle has reached the configured duration. -/
def is_min_cycle_respected (min_cycle_duration : Option ℚ)
    (last_vent_toggle : Option ℚ) (now : ℚ) : Bool :=
  match min_cycle_duration with
  | none => true
  | some mcd =>
    match last_vent_toggle with
    | none => true
    | some t => now - t ≥ mcd

/-- Outcome of a vent-control step: the resulting zone state, the list of
switch commands attempted on the vent actuator (true for turn_on, false for
turn_off), and whether the coordinator was notified by this step. -/
structure VentActionResult where
  state : ZoneState
  commands : List Bool
  coordinator_notified : Bool
  deriving DecidableEq, Repr

/-- `DuctedHVACZone._async_set_vent`: attempt the switch service call; when it
raises, log and return with state untouched and no coordinator notification;
on success record the new vent state and toggle time and notify the
coordinator.  `command_succeeds` models whether the service call raised. -/
def set_vent (z : ZoneState) (desired : Bool) (now : ℚ)
    (command_succeeds : Bool) : VentActionResult :=
  if command_succeeds then
    { state := { z with vent_open := desired, last_vent_toggle := some now }
      commands := [desired]
      coordinator_notified := true }
  else
    { state := z, commands := [desired], coordinator_notified := false }

/-- `DuctedHVACZone._async_control_vent`: compute the desired vent state; do
nothing when it already matches; do nothing when the minimum-cycle guard is
not respected; otherwise actuate via `set_vent`. -/
def control_vent (cfg : ZoneConfig) (z : ZoneState) (now : ℚ)
    (command_succeeds : Bool) : VentActionResult :=
  let desired := should_vent_be_open z.hvac_mode z.current_temp
    z.target_temp cfg.tolerance z.vent_open
  if desired = z.vent_open then
    { state := z, commands := [], coordinator_notified := false }
  else if ¬ is_min_cycle_respected cfg.min_cycle_duration z.last_vent_toggle now then
    { state := z, commands := [], coordinator_notified := false }
  else
    set_vent z desired now command_succeeds

/-- `DuctedHVACZone.async_set_hvac_mode`: reject (no-op) a mode outside the
configured list; otherwise store it, re-run vent control, and notify the
coordinator (the notification is not part of the returned state). -/
def set_hvac_mode (cfg : ZoneConfig) (z : ZoneState) (m : HVACMode)
    (now : ℚ) (command_succeeds : Bool) : ZoneState :=
  if m ∈ cfg.hvac_modes then
    (control_vent cfg { z with hvac_mode := m } now command_succeeds).state
  else
    z

/-- Temperature branch of `DuctedHVACZone.async_set_temperature`: store the
requested value as-is (the code performs no clamping or bounds check), then
re-run vent control. -/
def set_temperature (cfg : ZoneConfig) (z : ZoneState) (temp : ℚ)
    (now : ℚ) (command_succeeds : Bool) : ZoneState :=
  (control_vent cfg { z with target_temp := temp } now command_succeeds).state

/-- `DuctedHVACZone._async_sensor_changed`: ignore an absent or unparseable
reading; otherwise store it and re-run vent control. -/
def sensor_changed (cfg : ZoneConfig) (z : ZoneState) (reading : Option ℚ)
    (now : ℚ) (command_succeeds : Bool) : ZoneState :=
  match reading with
  | none => z
  | some v => (control_vent cfg { z with current_temp := some v } now command_succeeds).state

/-- Mode chosen by `DuctedHVACZone.async_turn_on`: the current mode when it is
not off, else cool when cool is configured, else entry 1 of the configured
mode list.  The result is `none` exactly when that list access is out of
range, which in the code raises `IndexError`. -/
def turn_on_mode (hvac_modes : List HVACMode) (current_mode : HVACMode) :
    Option HVACMode :=
  if current_mode ≠ HVACMode.off then
    some current_mode
  else if HVACMode.cool ∈ hvac_modes then
    some HVACMode.cool
  else
    hvac_modes[1]?

/-- `DuctedHVACZone.async_turn_on`: delegate to `async_set_hvac_mode` with the
mode from `turn_on_mode`; `none` models the `IndexError` escaping. -/
def turn_on (cfg : ZoneConfig) (z : ZoneState) (now : ℚ)
    (command_succeeds : Bool) : Option ZoneState :=
  (turn_on_mode cfg.hvac_modes z.hvac_mode).map
    (fun m => set_hvac_mode cfg z m now command_succeeds)

/-- `DuctedHVACZone.async_turn_off`: set mode off. -/
def turn_off (cfg : ZoneConfig) (z : ZoneState) (now : ℚ)
    (command_succeeds : Bool) : ZoneState :=
  set_hvac_mode cfg z HVACMode.off now command_succeeds

/-- Persisted values offered to the restore step of `async_added_to_hass`.
`state_mode` is the parse of the persisted state string into the platform
`HVACMode` enum (`none` when the string is not a member of that enum — the
code checks membership in the full enum, not the zone's configured list);
the other fields are `none` when absent or unparseable. -/
structure PersistedState where
  state_mode : Option HVACMode
  temperature : Option ℚ
  vent_open : Option Bool
  last_vent_toggle : Option ℚ
  fan_mode : Option String
  deriving DecidableEq, Repr

/-- Restore step of `DuctedHVACZone.async_added_to_hass`: each persisted field
overwrites the in-memory default when present; the persisted fan mode is
taken only when fan control is enabled and it is in the configured fan-mode
list. -/
def restore_state (cfg : ZoneConfig) (z : ZoneState)
    (last : Option PersistedState) : ZoneState :=
  match last with
  | none => z
  | some p =>
    let z1 := match p.state_mode with
      | some m => { z with hvac_mode := m }
      | none => z
    let z2 := match p.temperature with
      | some t => { z1 with target_temp := t }
      | none => z1
    let z3 := match p.vent_open with
      | some v => { z2 with vent_open := v }
      | none => z2
    let z4 := match p.last_vent_toggle with
      | some t => { z3 with last_vent_toggle := some t }
      | none => z3
    match z4.fan_mode, p.fan_mode with
    | some _, some fm =>
        if fm ∈ cfg.fan_modes then { z4 with fan_mode := some fm } else z4
    | _, _ => z4

/-- The slice of a zone's state that `MotorCoordinator._async_sync_motor`
reads: `vent_is_open`, `hvac_mode` and `target_temperature` (the climate
platform exposes the target as optional). -/
structure MotorZoneView where
  vent_is_open : Bool
  hvac_mode : HVACMode
  target_temperature : Option ℚ
  deriving DecidableEq, Repr

/-- A service call attempted on the shared motor unit. -/
inductive MotorCommand where
  | turnOff
  | setHvacMode (m : HVACMode)
  | setTemperature (t : ℚ)
  | setFanMode (f : String)
  deriving DecidableEq, Repr

/-- Outcome of one aggregation pass: the coordinator fields written, the
motor service calls attempted in order, and how many times the status sensor
was notified. -/
structure SyncResult where
  last_active_mode : Option HVACMode
  last_motor_temp : Option ℚ
  commands : List MotorCommand
  sensor_notifications : Nat
  deriving DecidableEq, Repr

/-- `MotorCoordinator._async_sync_motor`, translated from `__init__.py`.
Each `*_cmd_fails` flag models the corresponding motor service call raising;
the code catches every failure and only logs, so the turn-off, temperature
and fan failures change nothing observable, while a mode-set failure returns
early (after notifying the sensor) so the temperature and fan calls are not
attempted. -/
def sync_motor (zones : List MotorZoneView) (last_fan_mode : Option String)
    (off_cmd_fails mode_cmd_fails temp_cmd_fails fan_cmd_fails : Bool) :
    SyncResult :=
  let open_zones := zones.filter (fun z => z.vent_is_open)
  if open_zones.isEmpty then
    { last_active_mode := none
      last_motor_temp := none
      commands := [MotorCommand.turnOff]
      sensor_notifications := 1 }
  else
    let open_modes := open_zones.map (fun z => z.hvac_mode)
    let target_mode :=
      (MODE_PRIORITY.find? (fun m => m ∈ open_modes)).getD HVACMode.fanOnly
    let open_temps := open_zones.filterMap (fun z =>
      if z.hvac_mode ∈ TEMP_CONTROLLED_MODES then z.target_temperature else none)
    let target_temp : Option ℚ :=
      if target_mode = HVACMode.cool then open_temps.min?
      else if target_mode = HVACMode.heat then open_temps.max?
      else none
    { last_active_mode := some target_mode
      last_motor_temp := target_temp
      commands :=
        MotorCommand.setHvacMode target_mode ::
        (if mode_cmd_fails then [] else
          (match target_temp with
           | some t => [MotorCommand.setTemperature t]
           | none => []) ++
          (match last_fan_mode with
           | some f => [MotorCommand.setFanMode f]
           | none => []))
      sensor_notifications := 1 }

/-- Modelled from the spec: scan a fixed priority list in order and pick the
first mode present among the open zones' modes. -/
def first_priority_mode : List HVACMode → List HVACMode → Option HVACMode
  | [], _ => none
  | p :: ps, present =>
    if p ∈ present then some p else first_priority_mode ps present

/-- Modelled from the spec: the aggregation pass's target mode is the first
mode of [Cool, Heat, Dry, FanOnly] occurring among the open zones' modes,
defaulting to FanOnly. -/
def target_mode_spec (open_modes : List HVACMode) : HVACMode :=
  (first_priority_mode MODE_PRIORITY open_modes).getD HVACMode.fanOnly

/-- Modelled from the spec: the target temperatures of open zones whose mode
is Heat or Cool. -/
def qualifying_temps (zones : List MotorZoneView) : List ℚ :=
  zones.filterMap (fun z =>
    if z.vent_is_open ∧ (z.hvac_mode = HVACMode.heat ∨ z.hvac_mode = HVACMode.cool)
    then z.target_temperature else none)

/-- Modelled from the spec: the shared setpoint is the minimum of the
qualifying temperatures when the target mode is Cool, the maximum when Heat,
and absent otherwise. -/
def target_temp_of (tm : HVACMode) (qual : List ℚ) : Option ℚ :=
  if tm = HVACMode.cool then qual.min?
  else if tm = HVACMode.heat then qual.max?
  else none

/-- Lifecycle of an asyncio task as observed through `Task.done()`: a task
scheduled by `async_create_task` is not done until its coroutine finishes. -/
inductive TaskPhase where
  | created
  | running
  | finished
  deriving DecidableEq, Repr

/-- Scheduling state of `MotorCoordinator`: the `_pending_sync` task handle
(absent before the first trigger) and a counter of aggregation passes
scheduled so far. -/
structure CoordSched where
  pending_sync : Option TaskPhase
  syncs_scheduled : Nat
  deriving DecidableEq, Repr

/-- `MotorCoordinator.async_zone_changed`: when a pending sync task exists and
is not done, return without scheduling; otherwise create a new sync task. -/
def async_zone_changed (s : CoordSched) : CoordSched :=
  match s.pending_sync with
  | some ph =>
    if ph = TaskPhase.finished then
      { pending_sync := some TaskPhase.created
        syncs_scheduled := s.syncs_scheduled + 1 }
    else
      s
  | none =>
    { pending_sync := some TaskPhase.created
      syncs_scheduled := s.syncs_scheduled + 1 }

/-- Example configuration: modes off/heat/cool, bounds 16–30, tolerance 0.3,
no minimum cycle duration, fan control disabled. -/
def cfgA : ZoneConfig :=
  { hvac_modes := [HVACMode.off, HVACMode.heat, HVACMode.cool]
    min_temp := 16
    max_temp := 30
    tolerance := 3/10
    min_cycle_duration := none
    fan_modes := [] }

/-- Example configuration with a 300-second minimum cycle duration and modes
off/cool. -/
def cfgB : ZoneConfig :=
  { hvac_modes := [HVACMode.off, HVACMode.cool]
    min_temp := 16
    max_temp := 30
    tolerance := 3/10
    min_cycle_duration := some 300
    fan_modes := [] }

/-- Example zone state: cooling with a hot reading, vent closed, last toggled
at time 0. -/
def zClosedHot : ZoneState :=
  { hvac_mode := HVACMode.cool
    target_temp := 24
    current_temp := some 30
    fan_mode := none
    vent_open := false
    last_vent_toggle := some 0 }

/-- Example zone state: cooling with a hot reading, vent open, last toggled
at time 0. -/
def zOpenHot : ZoneState :=
  { zClosedHot with vent_open := true }

/-- Example coordinator view: zone A open cooling at 20, zone B open heating
at 22, zone C closed in dry mode. -/
def zsW : List MotorZoneView :=
  [{ vent_is_open := true, hvac_mode := HVACMode.cool, target_temperature := some 20 },
   { vent_is_open := true, hvac_mode := HVACMode.heat, target_temperature := some 22 },
   { vent_is_open := false, hvac_mode := HVACMode.dry, target_temperature := none }]

/-- Example coordinator view: one open cooling zone at 24. -/
def zsOne : List MotorZoneView :=
  [{ vent_is_open := true, hvac_mode := HVACMode.cool, target_temperature := some 24 }]

/-- Reachable trace under `cfgB`: from the initial state, a sensor reading of
30 arrives at time 0, the mode is set to Cool at time 10 (opening the vent),
and the mode is set to Off at time 100 — inside the 300-second minimum cycle
window. -/
def offTrace : ZoneState :=
  set_hvac_mode cfgB
    (set_hvac_mode cfgB
      (sensor_changed cfgB (initial_zone_state cfgB) (some 30) 0 true)
      HVACMode.cool 10 true)
    HVACMode.off 100 true

/-- Reachable trace under `cfgA`: set mode Heat at time 0, turn off at time 1,
turn on at time 2. -/
def turnOnTrace : Option ZoneState :=
  turn_on cfgA
    (turn_off cfgA
      (set_hvac_mode cfgA (initial_zone_state cfgA) HVACMode.heat 0 true)
      1 true)
    2 true

end DuctedHVAC

namespace DuctedHVAC

/-- Claim C1: for every zone, the damper decision is a pure function of
(mode, currentTemperature, targetTemperature, tolerance, damperOpen) equal to
the reference definition: Off returns false; FanOnly and Dry return true
unconditionally; Heat/Cool with a live reading apply the hysteresis rule and
hold the previous value inside the dead band; Heat/Cool without a reading
return false; any other mode returns false. -/
theorem should_vent_be_open_matches_ref (mode : HVACMode)
    (current_temp : Option ℚ) (target_temp tolerance : ℚ) (vent_open : Bool) :
    should_vent_be_open mode current_temp target_temp tolerance vent_open =
      should_vent_be_open_ref mode current_temp target_temp tolerance vent_open := by
  cases mode <;> cases current_temp <;>
    simp [should_vent_be_open, should_vent_be_open_ref]

/-- Claim C3: with a configured minimum cycle duration, when the damper
decision would change the damper state but now minus the last toggle
timestamp is below that duration, the change is suppressed: the zone state
(including `vent_open` and `last_vent_toggle`) is unchanged, no actuation
command is issued, and the coordinator is not notified (nothing is
rescheduled: the suppressed path performs no further action). -/
theorem min_cycle_suppresses_toggle (cfg : ZoneConfig) (z : ZoneState)
    (now mcd t : ℚ) (ok : Bool)
    (hmcd : cfg.min_cycle_duration = some mcd)
    (ht : z.last_vent_toggle = some t)
    (hchange : should_vent_be_open z.hvac_mode z.current_temp z.target_temp
      cfg.tolerance z.vent_open ≠ z.vent_open)
    (hrecent : now - t < mcd) :
    control_vent cfg z now ok =
      { state := z, commands := [], coordinator_notified := false } := by
  have hguard : is_min_cycle_respected cfg.min_cycle_duration
      z.last_vent_toggle now = false := by
    simp [is_min_cycle_respected, hmcd, ht, not_le.mpr hrecent]
  simp [control_vent, hchange, hguard]

/-- Witness for claim C3: a cooling zone that should open (reading 30, target
24) with a 300-second minimum cycle, last toggled 100 seconds ago, keeps its
state with no actuation. -/
theorem min_cycle_suppresses_toggle_witness :
    control_vent cfgB zClosedHot 100 true =
      { state := zClosedHot, commands := [], coordinator_notified := false } :=
  min_cycle_suppresses_toggle cfgB zClosedHot 100 300 0 true rfl rfl
    (by
      norm_num [should_vent_be_open, zClosedHot, cfgB]
      exact ⟨by decide, fun _ _ => by decide⟩)
    (by norm_num)

/-- Claim C4: when the vent actuation command fails, the zone state (so both
`vent_open` and `last_vent_toggle`) is unchanged and the coordinator is not
notified; when it succeeds, `vent_open` becomes the desired state,
`last_vent_toggle` becomes the current time, and the coordinator is
notified. -/
theorem set_vent_failure_and_success (z : ZoneState) (desired : Bool)
    (now : ℚ) :
    (set_vent z desired now false).state = z ∧
    (set_vent z desired now false).coordinator_notified = false ∧
    (set_vent z desired now true).state =
      { z with vent_open := desired, last_vent_toggle := some now } ∧
    (set_vent z desired now true).coordinator_notified = true := by
  simp [set_vent]

/-- Claim C6: a zone-change notification arriving while the pending sync task
is not done leaves the coordinator's scheduling state untouched, and N ≥ 1
notifications arriving from the idle state with no intervening task
completion schedule exactly one aggregation pass. -/
theorem debounce_coalesces (s : CoordSched) (n : Nat) (ph : TaskPhase) :
    (s.pending_sync = some ph → ph ≠ TaskPhase.finished →
      async_zone_changed s = s) ∧
    (s.pending_sync = none → 1 ≤ n →
      (async_zone_changed^[n] s).syncs_scheduled = s.syncs_scheduled + 1) := by
  constructor
  · intro hp hnd
    simp [async_zone_changed, hp, hnd]
  · intro hp hn
    obtain ⟨m, rfl⟩ : ∃ m, n = m + 1 := ⟨n - 1, (Nat.succ_pred_eq_of_pos hn).symm⟩
    rw [Function.iterate_succ_apply]
    have hstep : async_zone_changed s =
        { pending_sync := some TaskPhase.created
          syncs_scheduled := s.syncs_scheduled + 1 } := by
      simp [async_zone_changed, hp]
    rw [hstep]
    have hfix : ∀ (k : Nat) (s' : CoordSched),
        s'.pending_sync = some TaskPhase.created →
        async_zone_changed^[k] s' = s' := by
      intro k
      induction k with
      | zero => intro s' _; rfl
      | succ j ih =>
        intro s' hp'
        rw [Function.iterate_succ_apply]
        have : async_zone_changed s' = s' := by
          simp [async_zone_changed, hp']
        rw [this]
        exact ih s' hp'
    rw [hfix m _ rfl]

/-- Witness for claim C6: a notification while a sync task is pending is a
no-op, and three notifications from the idle state schedule exactly one
pass. -/
theorem debounce_coalesces_witness :
    async_zone_changed
        { pending_sync := some TaskPhase.created, syncs_scheduled := 5 } =
      { pending_sync := some TaskPhase.created, syncs_scheduled := 5 } ∧
    (async_zone_changed^[3]
        { pending_sync := none, syncs_scheduled := 0 }).syncs_scheduled =
      0 + 1 :=
  ⟨(debounce_coalesces
      { pending_sync := some TaskPhase.created, syncs_scheduled := 5 }
      1 TaskPhase.created).1 rfl (by decide),
   (debounce_coalesces { pending_sync := none, syncs_scheduled := 0 }
      3 TaskPhase.created).2 rfl (by decide)⟩

/-- Claim C10: when the current mode is Off and Cool is not configured,
turn-on reads index 1 of the configured mode list; the access succeeds
exactly when the list has at least two entries, and with the list containing
only Off it is out of range (`none` models the escaping `IndexError`). -/
theorem turn_on_reads_index_one (modes : List HVACMode)
    (hcool : HVACMode.cool ∉ modes) :
    turn_on_mode modes HVACMode.off = modes[1]? ∧
    (2 ≤ modes.length → (turn_on_mode modes HVACMode.off).isSome = true) ∧
    turn_on_mode [HVACMode.off] HVACMode.off = none := by
  have hidx : turn_on_mode modes HVACMode.off = modes[1]? := by
    simp [turn_on_mode, hcool]
  refine ⟨hidx, ?_, by decide⟩
  intro hlen
  rw [hidx, List.getElem?_eq_getElem (by omega)]
  rfl

/-- Witness for claim C10: with configured modes [Off, Heat], turn-on from
Off picks entry 1 (Heat), and with [Off] alone the access is out of range. -/
theorem turn_on_reads_index_one_witness :
    turn_on_mode [HVACMode.off, HVACMode.heat] HVACMode.off =
      [HVACMode.off, HVACMode.heat][1]? ∧
    (turn_on_mode [HVACMode.off, HVACMode.heat] HVACMode.off).isSome = true ∧
    turn_on_mode [HVACMode.off] HVACMode.off = none :=
  have h := turn_on_reads_index_one [HVACMode.off, HVACMode.heat] (by decide)
  ⟨h.1, h.2.1 (by decide), h.2.2⟩

theorem filter_filterMap_temps (zones : List MotorZoneView) :
    (zones.filter (fun z => z.vent_is_open)).filterMap (fun z =>
      if z.hvac_mode ∈ TEMP_CONTROLLED_MODES then z.target_temperature else none)
      = qualifying_temps zones := by
  induction zones with
  | nil => rfl
  | cons z zs ih =>
    have hmem : (z.hvac_mode ∈ TEMP_CONTROLLED_MODES) =
        (z.hvac_mode = HVACMode.heat ∨ z.hvac_mode = HVACMode.cool) := by
      simp [TEMP_CONTROLLED_MODES]
    by_cases hv : z.vent_is_open
    · by_cases hm : z.hvac_mode = HVACMode.heat ∨ z.hvac_mode = HVACMode.cool
      · simp only [qualifying_temps, List.filter_cons, List.filterMap_cons,
          hv, hm, hmem, if_true, and_true, ite_true] at *
        cases z.target_temperature <;> simp [ih]
      · simp only [qualifying_temps, List.filter_cons, List.filterMap_cons,
          hv, hm, hmem, if_true, and_false, ite_false, if_false] at *
        simp [ih]
    · simp only [qualifying_temps, List.filter_cons, List.filterMap_cons,
        hv, false_and, ite_false, Bool.false_eq_true, if_false] at *
      simp [ih]

theorem find_eq_first_priority (ps present : List HVACMode) :
    ps.find? (fun m => m ∈ present) = first_priority_mode ps present := by
  induction ps with
  | nil => rfl
  | cons p ps ih =>
    by_cases hp : p ∈ present
    · rw [List.find?_cons_of_pos _ (by simpa using hp)]
      simp [first_priority_mode, hp]
    · rw [List.find?_cons_of_neg _ (by simpa using hp)]
      simp [first_priority_mode, hp, ih]

theorem min?_is_least (l : List ℚ) (v : ℚ) (h : l.min? = some v) :
    v ∈ l ∧ ∀ u ∈ l, v ≤ u := by
  haveI : Std.Antisymm (fun (a b : ℚ) => a ≤ b) :=
    ⟨fun h1 h2 => le_antisymm h1 h2⟩
  exact (List.min?_eq_some_iff (fun a => le_refl a)
    (fun a b => min_choice a b) (fun a b c => le_min_iff)).mp h

theorem max?_is_greatest (l : List ℚ) (v : ℚ) (h : l.max? = some v) :
    v ∈ l ∧ ∀ u ∈ l, u ≤ v := by
  haveI : Std.Antisymm (fun (a b : ℚ) => a ≤ b) :=
    ⟨fun h1 h2 => le_antisymm h1 h2⟩
  exact (List.max?_eq_some_iff (fun a => le_refl a)
    (fun a b => max_choice a b) (fun a b c => max_le_iff)).mp h

theorem sync_motor_closed_eq (zones : List MotorZoneView) (fan : Option String)
    (f1 f2 f3 f4 : Bool) (h : zones.filter (fun z => z.vent_is_open) = []) :
    sync_motor zones fan f1 f2 f3 f4 =
      { last_active_mode := none
        last_motor_temp := none
        commands := [MotorCommand.turnOff]
        sensor_notifications := 1 } := by
  simp [sync_motor, h]

theorem sync_motor_open_eq (zones : List MotorZoneView) (fan : Option String)
    (f1 f2 f3 f4 : Bool) (h : zones.filter (fun z => z.vent_is_open) ≠ []) :
    sync_motor zones fan f1 f2 f3 f4 =
      { last_active_mode := some (target_mode_spec
          ((zones.filter (fun z => z.vent_is_open)).map (fun z => z.hvac_mode)))
        last_motor_temp := target_temp_of
          (target_mode_spec
            ((zones.filter (fun z => z.vent_is_open)).map (fun z => z.hvac_mode)))
          (qualifying_temps zones)
        commands := MotorCommand.setHvacMode (target_mode_spec
            ((zones.filter (fun z => z.vent_is_open)).map (fun z => z.hvac_mode))) ::
          (if f2 then [] else
            (match target_temp_of
                (target_mode_spec ((zones.filter (fun z => z.vent_is_open)).map
                  (fun z => z.hvac_mode)))
                (qualifying_temps zones) with
             | some t => [MotorCommand.setTemperature t]
             | none => []) ++
            (match fan with
             | some f => [MotorCommand.setFanMode f]
             | none => []))
        sensor_notifications := 1 } := by
  have hne : (zones.filter (fun z => z.vent_is_open)).isEmpty = false := by
    simpa [List.isEmpty_iff] using h
  simp only [sync_motor, hne, Bool.false_eq_true, if_false,
    find_eq_first_priority, filter_filterMap_temps]
  rfl

/-- Claim C2: for every aggregation pass, if no registered zone has its
damper open the shared unit receives a turn-off command and both
`lastActiveMode` and `lastCommandedTemperature` become absent; otherwise the
target mode is the first mode of [Cool, Heat, Dry, FanOnly] occurring among
the open zones' modes (default FanOnly), the target temperature is the
minimum (Cool) or the maximum (Heat) of the target temperatures of open
zones whose mode is Heat or Cool, and no temperature command is issued for
any other target mode or when that qualifying set is empty. -/
theorem sync_motor_aggregation (zones : List MotorZoneView)
    (fan : Option String) (f1 f2 f3 f4 : Bool) (r : SyncResult)
    (tm : HVACMode) (qual : List ℚ)
    (hr : r = sync_motor zones fan f1 f2 f3 f4)
    (htm : tm = target_mode_spec
      ((zones.filter (fun z => z.vent_is_open)).map (fun z => z.hvac_mode)))
    (hq : qual = qualifying_temps zones) :
    (zones.filter (fun z => z.vent_is_open) = [] →
      r.commands = [MotorCommand.turnOff] ∧
      r.last_active_mode = none ∧ r.last_motor_temp = none) ∧
    (zones.filter (fun z => z.vent_is_open) ≠ [] →
      r.last_active_mode = some tm ∧
      (tm = HVACMode.cool →
        (qual = [] → r.last_motor_temp = none) ∧
        (∀ v, r.last_motor_temp = some v → v ∈ qual ∧ ∀ u ∈ qual, v ≤ u) ∧
        (qual ≠ [] → r.last_motor_temp.isSome = true)) ∧
      (tm = HVACMode.heat →
        (qual = [] → r.last_motor_temp = none) ∧
        (∀ v, r.last_motor_temp = some v → v ∈ qual ∧ ∀ u ∈ qual, u ≤ v) ∧
        (qual ≠ [] → r.last_motor_temp.isSome = true)) ∧
      (tm ≠ HVACMode.cool → tm ≠ HVACMode.heat → r.last_motor_temp = none) ∧
      (r.last_motor_temp = none →
        ∀ t, MotorCommand.setTemperature t ∉ r.commands)) := by
  subst hr htm hq
  constructor
  · intro hclosed
    rw [sync_motor_closed_eq zones fan f1 f2 f3 f4 hclosed]
    exact ⟨rfl, rfl, rfl⟩
  · intro hopen
    rw [sync_motor_open_eq zones fan f1 f2 f3 f4 hopen]
    refine ⟨rfl, ?_, ?_, ?_, ?_⟩
    · intro hcool
      refine ⟨?_, ?_, ?_⟩
      · intro hq0
        simp [target_temp_of, hcool, hq0]
      · intro v hv
        simp only [target_temp_of, hcool, if_true] at hv
        exact min?_is_least _ v hv
      · intro hqne
        simp only [target_temp_of, hcool, if_true]
        cases hql : qualifying_temps zones with
        | nil => exact absurd hql hqne
        | cons a l => simp [List.min?]
    · intro hheat
      have hnc : ¬ (target_mode_spec ((zones.filter (fun z => z.vent_is_open)).map
          (fun z => z.hvac_mode)) = HVACMode.cool) := by
        rw [hheat]; intro hcontra; exact HVACMode.noConfusion hcontra
      refine ⟨?_, ?_, ?_⟩
      · intro hq0
        simp [target_temp_of, hheat, hq0]
      · intro v hv
        simp only [target_temp_of, hheat, hnc, if_true, if_false] at hv
        exact max?_is_greatest _ v (by simpa [hnc] using hv)
      · intro hqne
        simp only [target_temp_of, hheat]
        cases hql : qualifying_temps zones with
        | nil => exact absurd hql hqne
        | cons a l => simp [List.max?, List.min?]
    · intro hnc hnh
      simp [target_temp_of, hnc, hnh]
    · intro hnone t
      simp only at hnone
      simp only [hnone, List.mem_cons]
      rintro (h | h)
      · exact MotorCommand.noConfusion h
      · rcases hf2 : f2 with _ | _ <;> rw [hf2] at h
        · simp only [if_false, Bool.false_eq_true] at h
          cases fan with
          | none => simp at h
          | some f =>
            simp only [List.nil_append, List.mem_singleton] at h
            exact MotorCommand.noConfusion h
        · simp at h

/-- Witness for claim C2: with zone A open cooling at 20, zone B open heating
at 22, and zone C closed in dry mode, the pass commands mode Cool and a
present setpoint. -/
theorem sync_motor_aggregation_witness :
    (sync_motor zsW none false false false false).last_active_mode =
      some HVACMode.cool ∧
    (sync_motor zsW none false false false false).last_motor_temp.isSome =
      true := by
  have h := (sync_motor_aggregation zsW none false false false false
    (sync_motor zsW none false false false false)
    (target_mode_spec ((zsW.filter (fun z => z.vent_is_open)).map
      (fun z => z.hvac_mode)))
    (qualifying_temps zsW) rfl rfl rfl).2 (by decide)
  have htm : target_mode_spec ((zsW.filter (fun z => z.vent_is_open)).map
      (fun z => z.hvac_mode)) = HVACMode.cool := by decide
  exact ⟨htm ▸ h.1, (h.2.1 htm).2.2 (by decide)⟩

/-- Claim C5: every execution path of an aggregation pass notifies the status
sensor exactly once; when the mode-set command raises, neither the
temperature-set nor the fan-set command is attempted; and a temperature-set
failure (any value of `f3`) does not prevent the fan-set attempt. -/
theorem sync_motor_error_paths (zones : List MotorZoneView)
    (fan : Option String) (f1 f2 f3 f4 : Bool) (r : SyncResult)
    (hr : r = sync_motor zones fan f1 f2 f3 f4) :
    r.sensor_notifications = 1 ∧
    (f2 = true → (∀ t, MotorCommand.setTemperature t ∉ r.commands) ∧
      (∀ f, MotorCommand.setFanMode f ∉ r.commands)) ∧
    (f2 = false → zones.filter (fun z => z.vent_is_open) ≠ [] →
      ∀ f, fan = some f → MotorCommand.setFanMode f ∈ r.commands) := by
  subst hr
  by_cases hclosed : zones.filter (fun z => z.vent_is_open) = []
  · rw [sync_motor_closed_eq zones fan f1 f2 f3 f4 hclosed]
    refine ⟨rfl, ?_, ?_⟩
    · intro _
      constructor <;> intro x <;> simp
    · intro _ hne
      exact absurd hclosed hne
  · rw [sync_motor_open_eq zones fan f1 f2 f3 f4 hclosed]
    refine ⟨rfl, ?_, ?_⟩
    · intro hf2
      rw [hf2]
      constructor <;> intro x <;> simp
    · intro hf2 _ f hf
      rw [hf2, hf]
      cases htt : target_temp_of
          (target_mode_spec ((zones.filter (fun z => z.vent_is_open)).map
            (fun z => z.hvac_mode)))
          (qualifying_temps zones) <;>
        simp [htt]

/-- Witness for claim C5: one open cooling zone with a recorded fan mode and
a failing temperature-set command: the sensor is notified once and the
fan-set command is still attempted. -/
theorem sync_motor_error_paths_witness :
    (sync_motor zsOne (some "low") false false true false).sensor_notifications
      = 1 ∧
    MotorCommand.setFanMode "low" ∈
      (sync_motor zsOne (some "low") false false true false).commands := by
  have h := sync_motor_error_paths zsOne (some "low") false false true false
    (sync_motor zsOne (some "low") false false true false) rfl
  exact ⟨h.1, h.2.2 rfl (by decide) "low" rfl⟩

theorem control_vent_preserves (cfg : ZoneConfig) (z : ZoneState) (now : ℚ)
    (ok : Bool) :
    (control_vent cfg z now ok).state.hvac_mode = z.hvac_mode ∧
    (control_vent cfg z now ok).state.target_temp = z.target_temp := by
  simp only [control_vent, set_vent]
  split_ifs <;> exact ⟨rfl, rfl⟩

/-- Counterexample to claim C7: `async_set_temperature` stores the requested
value without clamping, so one command from the initial state drives
`targetTemperature` to 100, above `max_temp = 30`; and the restore path
accepts any member of the platform `HVACMode` enum, so a persisted
`heat_cool` state establishes a mode outside the configured set
[Off, Heat, Cool]. -/
theorem targets_unclamped_counterexample :
    ¬ ((set_temperature cfgA (initial_zone_state cfgA) 100 0 true).target_temp
        ≤ cfgA.max_temp) ∧
    (restore_state cfgA (initial_zone_state cfgA)
        (some { state_mode := some HVACMode.heatCool
                temperature := some 50
                vent_open := none
                last_vent_toggle := none
                fan_mode := none })).hvac_mode ∉ cfgA.hvac_modes := by
  constructor
  · have h : (set_temperature cfgA (initial_zone_state cfgA)
        100 0 true).target_temp = 100 := by
      simp [set_temperature, control_vent, should_vent_be_open,
        initial_zone_state, cfgA]
    rw [h, show cfgA.max_temp = 30 from rfl]
    norm_num
  · have h : (restore_state cfgA (initial_zone_state cfgA)
        (some { state_mode := some HVACMode.heatCool
                temperature := some 50
                vent_open := none
                last_vent_toggle := none
                fan_mode := none })).hvac_mode = HVACMode.heatCool := by
      simp [restore_state, initial_zone_state, cfgA]
    rw [h]
    decide

/-- Claim C7 as amended: `async_set_hvac_mode` does preserve membership of
the mode in the configured set (an invalid mode is rejected as a no-op), but
`async_set_temperature` stores the requested value with no clamping or
validation, so `targetTemperature` can leave [minTemp, maxTemp], and
restore-on-start accepts any platform `HVACMode` value and any persisted
target temperature. -/
theorem mode_validated_temperature_not_clamped (cfg : ZoneConfig)
    (z : ZoneState) (m : HVACMode) (t now : ℚ) (ok : Bool)
    (hz : z.hvac_mode ∈ cfg.hvac_modes) :
    (set_hvac_mode cfg z m now ok).hvac_mode ∈ cfg.hvac_modes ∧
    (set_temperature cfg z t now ok).target_temp = t := by
  constructor
  · by_cases hm : m ∈ cfg.hvac_modes
    · rw [set_hvac_mode, if_pos hm, (control_vent_preserves cfg _ now ok).1]
      exact hm
    · rw [set_hvac_mode, if_neg hm]
      exact hz
  · rw [set_temperature, (control_vent_preserves cfg _ now ok).2]

/-- Witness for amended claim C7: from the initial state, a valid mode change
stays inside the configured set while a temperature command stores 100
verbatim. -/
theorem mode_validated_temperature_not_clamped_witness :
    (set_hvac_mode cfgA (initial_zone_state cfgA) HVACMode.heat
        0 true).hvac_mode ∈ cfgA.hvac_modes ∧
    (set_temperature cfgA (initial_zone_state cfgA) 100
        0 true).target_temp = 100 :=
  mode_validated_temperature_not_clamped cfgA (initial_zone_state cfgA)
    HVACMode.heat 100 0 true (by decide)

/-- Counterexample to claim C8: on the reachable trace `offTrace` the mode is
set to Off 90 seconds after the vent opened, inside the configured 300-second
minimum cycle, so the toggle is suppressed and the state has mode Off with
the damper still open. -/
theorem off_with_open_vent_counterexample :
    offTrace.hvac_mode = HVACMode.off ∧ offTrace.vent_open = true := by
  have h1 : sensor_changed cfgB (initial_zone_state cfgB) (some 30) 0 true =
      { hvac_mode := HVACMode.off
        target_temp := 23
        current_temp := some 30
        fan_mode := none
        vent_open := false
        last_vent_toggle := none } := by
    simp [sensor_changed, control_vent, should_vent_be_open,
      initial_zone_state, cfgB]
    norm_num
  have h2 : set_hvac_mode cfgB
      { hvac_mode := HVACMode.off
        target_temp := 23
        current_temp := some 30
        fan_mode := none
        vent_open := false
        last_vent_toggle := none } HVACMode.cool 10 true =
      { hvac_mode := HVACMode.cool
        target_temp := 23
        current_temp := some 30
        fan_mode := none
        vent_open := true
        last_vent_toggle := some 10 } := by
    simp [set_hvac_mode, control_vent, should_vent_be_open,
      is_min_cycle_respected, set_vent, cfgB]
    norm_num
  have h3 : set_hvac_mode cfgB
      { hvac_mode := HVACMode.cool
        target_temp := 23
        current_temp := some 30
        fan_mode := none
        vent_open := true
        last_vent_toggle := some 10 } HVACMode.off 100 true =
      { hvac_mode := HVACMode.off
        target_temp := 23
        current_temp := some 30
        fan_mode := none
        vent_open := true
        last_vent_toggle := some 10 } := by
    simp [set_hvac_mode, control_vent, should_vent_be_open,
      is_min_cycle_respected, set_vent, cfgB]
    norm_num
  rw [show offTrace = set_hvac_mode cfgB (set_hvac_mode cfgB
    (sensor_changed cfgB (initial_zone_state cfgB) (some 30) 0 true)
    HVACMode.cool 10 true) HVACMode.off 100 true from rfl, h1, h2, h3]
  exact ⟨rfl, rfl⟩

/-- Claim C8 as amended: for mode Off the damper decision is always false, so
an operation setting the mode to Off closes the damper provided the
minimum-cycle guard permits the toggle and the actuation command succeeds;
when the guard suppresses the toggle or the command fails, the damper can
remain open with mode Off. -/
theorem off_request_closes_vent (cfg : ZoneConfig) (z : ZoneState) (now : ℚ)
    (hoff : HVACMode.off ∈ cfg.hvac_modes)
    (hguard : is_min_cycle_respected cfg.min_cycle_duration
      z.last_vent_toggle now = true) :
    should_vent_be_open HVACMode.off z.current_temp z.target_temp
      cfg.tolerance z.vent_open = false ∧
    (set_hvac_mode cfg z HVACMode.off now true).hvac_mode = HVACMode.off ∧
    (set_hvac_mode cfg z HVACMode.off now true).vent_open = false := by
  refine ⟨by simp [should_vent_be_open], ?_, ?_⟩ <;>
    rw [set_hvac_mode, if_pos hoff] <;>
    cases hv : z.vent_open <;>
    simp [control_vent, should_vent_be_open, hv, hguard, set_vent]

/-- Witness for amended claim C8: an open cooling zone with no minimum cycle
configured is closed by a successful Off request. -/
theorem off_request_closes_vent_witness :
    should_vent_be_open HVACMode.off zOpenHot.current_temp
      zOpenHot.target_temp cfgA.tolerance zOpenHot.vent_open = false ∧
    (set_hvac_mode cfgA zOpenHot HVACMode.off 100 true).hvac_mode =
      HVACMode.off ∧
    (set_hvac_mode cfgA zOpenHot HVACMode.off 100 true).vent_open = false :=
  off_request_closes_vent cfgA zOpenHot 100 (by decide) (by decide)

/-- Counterexample to claim C9: on the reachable trace `turnOnTrace` the zone
previously had non-Off mode Heat, was turned off, and turn-on then yields
Cool — the configured default — rather than restoring Heat: the code keeps no
memory of the last non-Off mode. -/
theorem turn_on_forgets_previous_mode_counterexample :
    (set_hvac_mode cfgA (initial_zone_state cfgA) HVACMode.heat
        0 true).hvac_mode = HVACMode.heat ∧
    turnOnTrace.map (fun z => z.hvac_mode) = some HVACMode.cool ∧
    HVACMode.cool ≠ HVACMode.heat := by
  refine ⟨?_, ?_, by decide⟩
  · simp [set_hvac_mode, control_vent, should_vent_be_open,
      initial_zone_state, cfgA, is_min_cycle_respected, set_vent]
  · simp [turnOnTrace, turn_on, turn_off, turn_on_mode, set_hvac_mode,
      control_vent, should_vent_be_open, initial_zone_state, cfgA,
      is_min_cycle_respected, set_vent]

/-- Claim C9 as amended: turn-on keeps the zone's current mode when it is not
Off; when the current mode is Off — even if a non-Off mode had been set
earlier — it falls back to Cool when Cool is configured, otherwise to entry 1
of the configured mode list. -/
theorem turn_on_uses_current_mode (modes : List HVACMode) (cur : HVACMode) :
    (cur ≠ HVACMode.off → turn_on_mode modes cur = some cur) ∧
    (cur = HVACMode.off → HVACMode.cool ∈ modes →
      turn_on_mode modes cur = some HVACMode.cool) ∧
    (cur = HVACMode.off → HVACMode.cool ∉ modes →
      turn_on_mode modes cur = modes[1]?) := by
  refine ⟨?_, ?_, ?_⟩
  · intro h
    simp [turn_on_mode, h]
  · intro h hc
    simp [turn_on_mode, h, hc]
  · intro h hc
    simp [turn_on_mode, h, hc]

/-- Witness for amended claim C9: with configured modes [Off, Heat, Cool] and
current mode Off, turn-on picks Cool. -/
theorem turn_on_uses_current_mode_witness :
    turn_on_mode [HVACMode.off, HVACMode.heat, HVACMode.cool] HVACMode.off =
      some HVACMode.cool :=
  (turn_on_uses_current_mode [HVACMode.off, HVACMode.heat, HVACMode.cool]
    HVACMode.off).2.1 rfl (by decide)

end DuctedHVAC
